import Mathlib

/-!
Shallow embedding of the HayQC core: the tenant-scoped access guards
(`backend/src/auth/guards.ts`), the bale routes that call them
(`backend/src/routes/bales.ts`), and the quality-grade classifier
(`webapp/src/types/qc.ts`, `calculateBaleGrade`).

Persistence is modelled as an explicit snapshot (`DB`) of the relational
tables; every `prisma.<table>.findUnique` becomes a `List.find?` over the
corresponding table, and the chained `include` joins become explicit
`Option.bind` chains. TypeScript string enums evaluate to their literal
strings at runtime (for example `Color.DARK_GREEN === 'DARK_GREEN'`), so
enum-or-string parameters are modelled as `String`; the JS `number` inputs
of the classifier are modelled as `ℚ`. `HTTPException(status, message)`
thrown by a guard, and the JSON error responses of the routes, are both
modelled as the `httpError` variant of `AccessResult`.
-/

namespace HayQC

/-- The verified principal decoded from the JWT (`AuthPayload` in
`backend/src/auth/jwt.ts`). The `role` field is a plain string in the
source, so it is a plain `String` here: values outside the four known
roles are representable, exactly as in the code. -/
structure AuthPayload where
  userId : String
  companyId : String
  role : String
deriving DecidableEq, Repr

/-- Row of the PurchaseOrder table (the columns the guards read). -/
structure PORec where
  id : String
  companyId : String
deriving DecidableEq, Repr

/-- Row of the Shipment table (the columns the guards read). -/
structure ShipmentRec where
  id : String
  poId : String
deriving DecidableEq, Repr

/-- Row of the Container table (the columns the guards read). -/
structure ContainerRec where
  id : String
  shipmentId : String
deriving DecidableEq, Repr

/-- Row of the Bale table: the denormalized ancestor ids `poId` and
`shipmentId`, the real parent reference `containerId`, and the payload
columns accepted by `createBaleSchema` in `routes/bales.ts`. -/
structure BaleRec where
  id : String
  poId : String
  shipmentId : String
  containerId : String
  inspectorId : String
  baleNumber : Nat
  baleIdDisplay : String
  weightKg : ℚ
  moisturePct : Option ℚ
  color : String
  stems : String
  wetness : String
  contamination : Bool
  mixedMaterial : Bool
  mold : Bool
  grade : String
  decision : String
deriving DecidableEq, Repr

/-- Row of the POUserAssignment table: a grant record, unique per
`(poId, userId)` pair (the `poId_userId` composite key). -/
structure Assignment where
  poId : String
  userId : String
deriving DecidableEq, Repr

/-- Snapshot of the relational state the guards and routes read. -/
structure DB where
  pos : List PORec
  shipments : List ShipmentRec
  containers : List ContainerRec
  bales : List BaleRec
  assignments : List Assignment
deriving DecidableEq, Repr

/-- `prisma.purchaseOrder.findUnique` on the primary key. -/
def findPO (db : DB) (id : String) : Option PORec :=
  db.pos.find? (fun r => r.id = id)

/-- `prisma.shipment.findUnique` on the primary key. -/
def findShipment (db : DB) (id : String) : Option ShipmentRec :=
  db.shipments.find? (fun r => r.id = id)

/-- `prisma.container.findUnique` on the primary key. -/
def findContainer (db : DB) (id : String) : Option ContainerRec :=
  db.containers.find? (fun r => r.id = id)

/-- `prisma.bale.findUnique` on the primary key. -/
def findBale (db : DB) (id : String) : Option BaleRec :=
  db.bales.find? (fun r => r.id = id)

/-- `prisma.pOUserAssignment.findUnique` on the composite key
`poId_userId`, collapsed to the presence test the guards perform
(`!assignment`). -/
def hasAssignment (db : DB) (poId userId : String) : Bool :=
  db.assignments.any (fun a => a.poId = poId ∧ a.userId = userId)

/-- Join performed by `requireShipmentAccess`: the shipment row together
with its purchase order (`include: purchaseOrder`). Referential
integrity makes the inner lookup total on real data; a broken link is
folded into `none`. -/
def shipmentWithPO (db : DB) (id : String) : Option (ShipmentRec × PORec) :=
  (findShipment db id).bind fun s =>
    (findPO db s.poId).map fun po => (s, po)

/-- Join performed by `requireContainerAccess`: container, its shipment
and the purchase order above it. -/
def containerWithChain (db : DB) (id : String) :
    Option (ContainerRec × ShipmentRec × PORec) :=
  (findContainer db id).bind fun c =>
    (findShipment db c.shipmentId).bind fun s =>
      (findPO db s.poId).map fun po => (c, s, po)

/-- Join performed by `requireBaleAccess`: the bale and its live
container → shipment → purchase order chain (followed through the
`containerId` foreign key, not the denormalized columns). -/
def baleWithChain (db : DB) (id : String) :
    Option (BaleRec × ContainerRec × ShipmentRec × PORec) :=
  (findBale db id).bind fun b =>
    (findContainer db b.containerId).bind fun c =>
      (findShipment db c.shipmentId).bind fun s =>
        (findPO db s.poId).map fun po => (b, c, s, po)

/-- Outcome of a guard or route: either the value the source returns, or
the `HTTPException` / JSON error it raises, as a status code and message. -/
inductive AccessResult (α : Type) where
  | allow : α → AccessResult α
  | httpError : Nat → String → AccessResult α
deriving DecidableEq, Repr

/-- Decision part of an outcome, with the payload erased: used to compare
outcome shapes across entity types and principals. -/
def AccessResult.forget {α : Type} : AccessResult α → AccessResult Unit
  | .allow _ => .allow ()
  | .httpError n m => .httpError n m

/-- `requireRole` in `guards.ts`: 403 unless the principal role is in the
allow-list (authentication itself is out of scope, the principal is
already verified). -/
def requireRole (auth : AuthPayload) (allowedRoles : List String) :
    AccessResult AuthPayload :=
  if auth.role ∈ allowedRoles then .allow auth
  else .httpError 403
    ("Access denied. Required roles: " ++ String.intercalate ", " allowedRoles)

/-- `requirePOAccess` in `guards.ts`: 404 when the purchase order is
absent or in another company, then for CUSTOMER/SUPPLIER a 403 unless a
POUserAssignment exists for `(poId, userId)`. -/
def requirePOAccess (db : DB) (auth : AuthPayload) (poId : String) :
    AccessResult AuthPayload :=
  match findPO db poId with
  | none => .httpError 404 "Purchase order not found"
  | some po =>
    if po.companyId ≠ auth.companyId then
      .httpError 404 "Purchase order not found"
    else if auth.role = "CUSTOMER" ∨ auth.role = "SUPPLIER" then
      if hasAssignment db poId auth.userId then .allow auth
      else .httpError 403 "You do not have access to this purchase order"
    else .allow auth

/-- `requireShipmentAccess` in `guards.ts`: company check through the
joined purchase order, assignment check on `shipment.poId`; returns the
principal and `shipment.poId`. -/
def requireShipmentAccess (db : DB) (auth : AuthPayload) (shipmentId : String) :
    AccessResult (AuthPayload × String) :=
  match shipmentWithPO db shipmentId with
  | none => .httpError 404 "Shipment not found"
  | some (s, po) =>
    if po.companyId ≠ auth.companyId then
      .httpError 404 "Shipment not found"
    else if auth.role = "CUSTOMER" ∨ auth.role = "SUPPLIER" then
      if hasAssignment db s.poId auth.userId then .allow (auth, s.poId)
      else .httpError 403 "You do not have access to this shipment"
    else .allow (auth, s.poId)

/-- `requireContainerAccess` in `guards.ts`: company check through the
container → shipment → purchase order join, assignment check on
`container.shipment.poId`; returns the principal, `container.shipmentId`
and `container.shipment.poId`. -/
def requireContainerAccess (db : DB) (auth : AuthPayload) (containerId : String) :
    AccessResult (AuthPayload × String × String) :=
  match containerWithChain db containerId with
  | none => .httpError 404 "Container not found"
  | some (c, s, po) =>
    if po.companyId ≠ auth.companyId then
      .httpError 404 "Container not found"
    else if auth.role = "CUSTOMER" ∨ auth.role = "SUPPLIER" then
      if hasAssignment db s.poId auth.userId then .allow (auth, c.shipmentId, s.poId)
      else .httpError 403 "You do not have access to this container"
    else .allow (auth, c.shipmentId, s.poId)

/-- `requireBaleAccess` in `guards.ts`: the company check walks the live
`bale.container.shipment.purchaseOrder` chain, but the assignment check
uses the stored denormalized `bale.poId`; returns the principal and the
stored `containerId`, `shipmentId`, `poId` of the bale. -/
def requireBaleAccess (db : DB) (auth : AuthPayload) (baleId : String) :
    AccessResult (AuthPayload × String × String × String) :=
  match baleWithChain db baleId with
  | none => .httpError 404 "Bale not found"
  | some (b, _, _, po) =>
    if po.companyId ≠ auth.companyId then
      .httpError 404 "Bale not found"
    else if auth.role = "CUSTOMER" ∨ auth.role = "SUPPLIER" then
      if hasAssignment db b.poId auth.userId then
        .allow (auth, b.containerId, b.shipmentId, b.poId)
      else .httpError 403 "You do not have access to this bale"
    else .allow (auth, b.containerId, b.shipmentId, b.poId)

/-- `canCreateBales` in `guards.ts`. -/
def canCreateBales (auth : AuthPayload) : Bool :=
  auth.role = "INSPECTOR" ∨ auth.role = "SUPERVISOR"

/-! Generic view over the four entity-specific guards, used to state the
resolver properties once for every entity type (the `resolveAccess`
contract of the spec, realised in the code as the four `require*Access`
functions). -/

/-- Reference to one of the four guarded entity types. -/
inductive EntityRef where
  | po (id : String)
  | shipment (id : String)
  | container (id : String)
  | bale (id : String)
deriving DecidableEq, Repr

/-- Root company of an entity, computed exactly the way the matching
guard computes it (for a bale: through the live container chain). -/
def rootCompany (db : DB) : EntityRef → Option String
  | .po id => (findPO db id).map (fun po => po.companyId)
  | .shipment id => (shipmentWithPO db id).map (fun x => x.2.companyId)
  | .container id => (containerWithChain db id).map (fun x => x.2.2.companyId)
  | .bale id => (baleWithChain db id).map (fun x => x.2.2.2.companyId)

/-- Purchase-order id the matching guard feeds into the assignment
lookup for CUSTOMER/SUPPLIER principals. For a purchase order it is the
id itself, for a shipment its `poId` column, for a container the joined
`shipment.poId`, and for a bale the stored denormalized `bale.poId`. -/
def assignmentPoId (db : DB) : EntityRef → Option String
  | .po id => (findPO db id).map (fun _ => id)
  | .shipment id => (findShipment db id).map (fun s => s.poId)
  | .container id => (containerWithChain db id).map (fun x => x.2.1.poId)
  | .bale id => (findBale db id).map (fun b => b.poId)

/-- Message of the 404 raised by the guard of the given entity type. -/
def notFoundMsg : EntityRef → String
  | .po _ => "Purchase order not found"
  | .shipment _ => "Shipment not found"
  | .container _ => "Container not found"
  | .bale _ => "Bale not found"

/-- Message of the 403 raised by the guard of the given entity type. -/
def forbiddenMsg : EntityRef → String
  | .po _ => "You do not have access to this purchase order"
  | .shipment _ => "You do not have access to this shipment"
  | .container _ => "You do not have access to this container"
  | .bale _ => "You do not have access to this bale"

/-- Decision of the guard matching the entity type, payload erased. -/
def accessDecision (db : DB) (auth : AuthPayload) : EntityRef → AccessResult Unit
  | .po id => (requirePOAccess db auth id).forget
  | .shipment id => (requireShipmentAccess db auth id).forget
  | .container id => (requireContainerAccess db auth id).forget
  | .bale id => (requireBaleAccess db auth id).forget

/-! Quality-grade classifier (`calculateBaleGrade` in
`webapp/src/types/qc.ts`). -/

/-- Output grades of the classifier (`BaleGrade` enum). -/
inductive BaleGrade where
  | A
  | B
  | C
  | D
  | REJECT
deriving DecidableEq, Repr

/-- `calculateBaleGrade`: ordered rule list, first match wins. The source
compares `color` and `wetness` against both the enum member and the
literal string; since a TS string-enum member is its literal, each double
comparison collapses to one string equality. -/
def calculateBaleGrade (moisture : Option ℚ) (color wetness : String)
    (mold contamination : Bool) : BaleGrade :=
  if mold ∨ contamination ∨ wetness = "WET" then
    BaleGrade.REJECT
  else if (color = "DARK_GREEN" ∨ color = "GREEN")
      ∧ (moisture.any fun m => 10 ≤ m ∧ m ≤ 14)
      ∧ wetness = "DRY" then
    BaleGrade.A
  else if moisture.any (fun m => 30 < m) then
    BaleGrade.D
  else if moisture.any (fun m => 25 < m) then
    BaleGrade.C
  else if color = "LIGHT_GREEN" ∨ color = "BROWN"
      ∨ (moisture.any fun m => 14 < m ∧ m ≤ 25)
      ∨ wetness = "DAMP" then
    BaleGrade.B
  else if (color = "DARK_GREEN" ∨ color = "GREEN") ∧ wetness = "DRY" then
    BaleGrade.A
  else
    BaleGrade.B

/-! Bale routes (`backend/src/routes/bales.ts`): the list query
`GET /api/bales` and the creation handler `POST /api/bales`. -/

/-- Query-string parameters of `GET /api/bales`. `limit` defaults to 100
in the source. -/
structure BaleQuery where
  containerId : Option String := none
  shipmentId : Option String := none
  poId : Option String := none
  inspectorId : Option String := none
  limit : Nat := 100
deriving DecidableEq, Repr

/-- An optional equality filter: absent means no constraint, present
means the column must equal the given value. -/
def matchOpt (filter : Option String) (v : String) : Bool :=
  match filter with
  | none => true
  | some x => x = v

/-- Root company of a bale row through its live relation chain, as the
prisma `where.container.shipment.purchaseOrder.companyId` condition
resolves it. -/
def chainCompanyOfBale (db : DB) (b : BaleRec) : Option String :=
  (findContainer db b.containerId).bind fun c =>
    (findShipment db c.shipmentId).bind fun s =>
      (findPO db s.poId).map fun po => po.companyId

/-- The `where` clause built by the list handler: each supplied filter is
an equality constraint, and the company-scope condition is added only
when none of `containerId`, `shipmentId`, `poId` was supplied. -/
def listBalesWhere (db : DB) (auth : AuthPayload) (q : BaleQuery) (b : BaleRec) : Bool :=
  matchOpt q.containerId b.containerId
    ∧ matchOpt q.shipmentId b.shipmentId
    ∧ matchOpt q.poId b.poId
    ∧ matchOpt q.inspectorId b.inspectorId
    ∧ (if q.containerId = none ∧ q.shipmentId = none ∧ q.poId = none then
        chainCompanyOfBale db b = some auth.companyId
      else true)

/-- Insertion step of the `baleNumber` ordering. -/
def insertByBaleNumber (b : BaleRec) : List BaleRec → List BaleRec
  | [] => [b]
  | x :: xs =>
    if x.baleNumber ≤ b.baleNumber then x :: insertByBaleNumber b xs
    else b :: x :: xs

/-- `orderBy: baleNumber asc` of the list handler, as an insertion sort
(the database leaves the order of equal keys unspecified, and no claim
depends on it). -/
def orderByBaleNumber : List BaleRec → List BaleRec
  | [] => []
  | x :: xs => insertByBaleNumber x (orderByBaleNumber xs)

/-- `GET /api/bales`: when `containerId` is supplied the handler first
runs `requireContainerAccess`; with any other combination of filters no
access guard runs at all, and the `where` clause alone decides what is
returned. -/
def listBales (db : DB) (auth : AuthPayload) (q : BaleQuery) :
    AccessResult (List BaleRec) :=
  let rows : List BaleRec :=
    (orderByBaleNumber (db.bales.filter (listBalesWhere db auth q))).take q.limit
  match q.containerId with
  | some cid =>
    match requireContainerAccess db auth cid with
    | .httpError n m => .httpError n m
    | .allow _ => .allow rows
  | none => .allow rows

/-- Body accepted by `createBaleSchema`: the client supplies `poId`,
`shipmentId` and `containerId` itself, along with all measurement fields
and the already-computed `grade` and `decision`. -/
structure CreateBaleInput where
  poId : String
  shipmentId : String
  containerId : String
  inspectorId : String
  baleNumber : Nat
  baleIdDisplay : String
  weightKg : ℚ
  moisturePct : Option ℚ := none
  color : String
  stems : String
  wetness : String
  contamination : Bool := false
  mixedMaterial : Bool := false
  mold : Bool := false
  grade : String
  decision : String
deriving DecidableEq, Repr

/-- Bale row stored by `prisma.bale.create({ data })`: every column is
taken verbatim from the validated request body. -/
def baleOfInput (newId : String) (data : CreateBaleInput) : BaleRec :=
  { id := newId
    poId := data.poId
    shipmentId := data.shipmentId
    containerId := data.containerId
    inspectorId := data.inspectorId
    baleNumber := data.baleNumber
    baleIdDisplay := data.baleIdDisplay
    weightKg := data.weightKg
    moisturePct := data.moisturePct
    color := data.color
    stems := data.stems
    wetness := data.wetness
    contamination := data.contamination
    mixedMaterial := data.mixedMaterial
    mold := data.mold
    grade := data.grade
    decision := data.decision }

/-- `POST /api/bales`: role gate (`canCreateBales`), then
`requireContainerAccess` on the client-supplied `containerId`, then an
unconditional insert of the body. The unique constraint behind the P2002
handler (one `baleNumber` per container, per its error message) is
modelled as the duplicate test. The generated primary key is passed in
as `newId`. Returns the outcome together with the resulting state. -/
def createBale (db : DB) (auth : AuthPayload) (data : CreateBaleInput)
    (newId : String) : AccessResult BaleRec × DB :=
  if ¬ canCreateBales auth then
    (.httpError 403
      "Access denied. Only inspectors and supervisors can create bales.", db)
  else
    match requireContainerAccess db auth data.containerId with
    | .httpError n m => (.httpError n m, db)
    | .allow _ =>
      if db.bales.any (fun b =>
          b.containerId = data.containerId ∧ b.baleNumber = data.baleNumber) then
        (.httpError 409 "Bale number already exists for this container", db)
      else
        let b := baleOfInput newId data
        (.allow b, { db with bales := db.bales ++ [b] })

/-! Concrete sample state, used to instantiate the general theorems. -/

/-- Bale row with fixed payload columns, for building sample states. -/
def mkBale (id poId shipmentId containerId inspectorId : String) (n : Nat) : BaleRec :=
  { id := id
    poId := poId
    shipmentId := shipmentId
    containerId := containerId
    inspectorId := inspectorId
    baleNumber := n
    baleIdDisplay := id
    weightKg := 100
    moisturePct := none
    color := "GREEN"
    stems := "LOW"
    wetness := "DRY"
    contamination := false
    mixedMaterial := false
    mold := false
    grade := "A"
    decision := "ACCEPT" }

/-- Two-company sample state. Company A owns p1 → s1 → c1, company B owns
p2 → s2 → c2. Bales b1 (in c1) and b2 (in c2) share inspector i1. Bale bX
lives in c1 but stores the denormalized poId pX, which disagrees with its
live chain (p1). User u1 is assigned to p1 only. -/
def sampleDB : DB :=
  { pos := [{ id := "p1", companyId := "A" }, { id := "p2", companyId := "B" }]
    shipments := [{ id := "s1", poId := "p1" }, { id := "s2", poId := "p2" }]
    containers := [{ id := "c1", shipmentId := "s1" }, { id := "c2", shipmentId := "s2" }]
    bales := [mkBale "b1" "p1" "s1" "c1" "i1" 1,
              mkBale "b2" "p2" "s2" "c2" "i1" 2,
              mkBale "bX" "pX" "s1" "c1" "i1" 3]
    assignments := [{ poId := "p1", userId := "u1" }] }

/-- CUSTOMER in company A, assigned to p1. -/
def customerA : AuthPayload := { userId := "u1", companyId := "A", role := "CUSTOMER" }

/-- CUSTOMER in company A with no assignment at all. -/
def customerA2 : AuthPayload := { userId := "u2", companyId := "A", role := "CUSTOMER" }

/-- SUPERVISOR in company A. -/
def supervisorA : AuthPayload := { userId := "u3", companyId := "A", role := "SUPERVISOR" }

/-- Principal in company A whose role string is outside the four known roles. -/
def adminA : AuthPayload := { userId := "u9", companyId := "A", role := "ADMIN" }

/-- SUPERVISOR in company B, same userId as `supervisorA5`. -/
def supervisorB5 : AuthPayload := { userId := "u5", companyId := "B", role := "SUPERVISOR" }

/-- SUPERVISOR in company A, same userId as `supervisorB5`. -/
def supervisorA5 : AuthPayload := { userId := "u5", companyId := "A", role := "SUPERVISOR" }

/-- Creation request that targets container c1 (whose live chain is
s1 → p1) while claiming the unrelated ancestor ids p-bogus / s-bogus. -/
def bogusInput : CreateBaleInput :=
  { poId := "p-bogus"
    shipmentId := "s-bogus"
    containerId := "c1"
    inspectorId := "i1"
    baleNumber := 7
    baleIdDisplay := "B-7"
    weightKg := 100
    color := "GREEN"
    stems := "LOW"
    wetness := "DRY"
    grade := "A"
    decision := "ACCEPT" }

/-- List query that supplies only an inspectorId filter. -/
def inspectorOnlyQuery : BaleQuery := { inspectorId := some "i1" }

/-- State with no rows at all: every lookup misses. -/
def emptyDB : DB :=
  { pos := [], shipments := [], containers := [], bales := [], assignments := [] }

end HayQC

namespace HayQC

/-! Theorems. Each claim is settled by one theorem; the lemmas in this
block decompose the join helpers and are shared across claims. -/

/-- Splitting the shipment join into its two lookups. -/
theorem shipmentWithPO_eq_some {db : DB} {id : String} {s : ShipmentRec} {po : PORec}
    (h : shipmentWithPO db id = some (s, po)) :
    findShipment db id = some s ∧ findPO db s.poId = some po := by
  unfold shipmentWithPO at h
  obtain ⟨s0, hs0, h2⟩ := Option.bind_eq_some.mp h
  obtain ⟨po0, hpo0, h3⟩ := Option.map_eq_some'.mp h2
  simp only [Prod.mk.injEq] at h3
  obtain ⟨rfl, rfl⟩ := h3
  exact ⟨hs0, hpo0⟩

/-- Splitting the container join into its three lookups. -/
theorem containerWithChain_eq_some {db : DB} {id : String} {c : ContainerRec}
    {s : ShipmentRec} {po : PORec}
    (h : containerWithChain db id = some (c, s, po)) :
    findContainer db id = some c ∧ findShipment db c.shipmentId = some s
      ∧ findPO db s.poId = some po := by
  unfold containerWithChain at h
  obtain ⟨c0, hc0, h2⟩ := Option.bind_eq_some.mp h
  obtain ⟨s0, hs0, h3⟩ := Option.bind_eq_some.mp h2
  obtain ⟨po0, hpo0, h4⟩ := Option.map_eq_some'.mp h3
  simp only [Prod.mk.injEq] at h4
  obtain ⟨rfl, rfl, rfl⟩ := h4
  exact ⟨hc0, hs0, hpo0⟩

/-- Splitting the bale join into its four lookups. -/
theorem baleWithChain_eq_some {db : DB} {id : String} {b : BaleRec}
    {c : ContainerRec} {s : ShipmentRec} {po : PORec}
    (h : baleWithChain db id = some (b, c, s, po)) :
    findBale db id = some b ∧ findContainer db b.containerId = some c
      ∧ findShipment db c.shipmentId = some s ∧ findPO db s.poId = some po := by
  unfold baleWithChain at h
  obtain ⟨b0, hb0, h2⟩ := Option.bind_eq_some.mp h
  obtain ⟨c0, hc0, h3⟩ := Option.bind_eq_some.mp h2
  obtain ⟨s0, hs0, h4⟩ := Option.bind_eq_some.mp h3
  obtain ⟨po0, hpo0, h5⟩ := Option.map_eq_some'.mp h4
  simp only [Prod.mk.injEq] at h5
  obtain ⟨rfl, rfl, rfl, rfl⟩ := h5
  exact ⟨hb0, hc0, hs0, hpo0⟩

/-- Ownership loading never reads the assignment table. -/
theorem rootCompany_update_assignments (db : DB) (asg : List Assignment)
    (e : EntityRef) :
    rootCompany { db with assignments := asg } e = rootCompany db e := by
  cases e <;> rfl

/-- Any role outside CUSTOMER and SUPPLIER that passes the company check
is allowed by every guard: the guards only special-case those two role
strings. -/
theorem nonRestricted_role_allows (db : DB) (auth : AuthPayload) (e : EntityRef)
    (hncs : ¬ (auth.role = "CUSTOMER" ∨ auth.role = "SUPPLIER"))
    (hc : rootCompany db e = some auth.companyId) :
    accessDecision db auth e = .allow () := by
  cases e with
  | po id =>
    simp only [rootCompany] at hc
    obtain ⟨po, hpo, hcc⟩ := Option.map_eq_some'.mp hc
    simp [accessDecision, requirePOAccess, hpo, hcc, hncs, AccessResult.forget]
  | shipment id =>
    simp only [rootCompany] at hc
    obtain ⟨⟨s, po⟩, hsp, hcc⟩ := Option.map_eq_some'.mp hc
    have hcc2 : po.companyId = auth.companyId := hcc
    simp [accessDecision, requireShipmentAccess, hsp, hcc2, hncs, AccessResult.forget]
  | container id =>
    simp only [rootCompany] at hc
    obtain ⟨⟨cc, s, po⟩, hch, hcc⟩ := Option.map_eq_some'.mp hc
    have hcc2 : po.companyId = auth.companyId := hcc
    simp [accessDecision, requireContainerAccess, hch, hcc2, hncs, AccessResult.forget]
  | bale id =>
    simp only [rootCompany] at hc
    obtain ⟨⟨b, cc, s, po⟩, hch, hcc⟩ := Option.map_eq_some'.mp hc
    have hcc2 : po.companyId = auth.companyId := hcc
    simp [accessDecision, requireBaleAccess, hch, hcc2, hncs, AccessResult.forget]

/-- C7: whenever mold or contamination is set or wetness is WET, the
classifier returns REJECT, regardless of every other field: the reject
rule is checked first. -/
theorem c7_reject_rule_precedence (moisture : Option ℚ) (color wetness : String)
    (mold contamination : Bool)
    (h : mold = true ∨ contamination = true ∨ wetness = "WET") :
    calculateBaleGrade moisture color wetness mold contamination = BaleGrade.REJECT := by
  unfold calculateBaleGrade
  rcases h with h | h | h <;> simp [h]

/-- Witness for C7 at a concrete input. -/
theorem c7_reject_rule_precedence_witness :
    calculateBaleGrade (some 3) "DARK_GREEN" "WET" false false = BaleGrade.REJECT :=
  c7_reject_rule_precedence (some 3) "DARK_GREEN" "WET" false false
    (Or.inr (Or.inr rfl))

/-- C8: for clean dry green bales with a moisture reading outside the
Grade A band, the rule for moisture above 30 is checked strictly before
the rule for moisture above 25: above 30 yields D, in (25, 30] yields C;
in particular 28 yields C and 31 yields D. -/
theorem c8_moisture_rule_order (m : ℚ) (hout : ¬ (10 ≤ m ∧ m ≤ 14)) :
    (30 < m → calculateBaleGrade (some m) "GREEN" "DRY" false false = BaleGrade.D)
    ∧ (25 < m → m ≤ 30 →
        calculateBaleGrade (some m) "GREEN" "DRY" false false = BaleGrade.C)
    ∧ calculateBaleGrade (some 28) "GREEN" "DRY" false false = BaleGrade.C
    ∧ calculateBaleGrade (some 31) "GREEN" "DRY" false false = BaleGrade.D := by
  refine ⟨?_, ?_, by decide, by decide⟩
  · intro h30
    unfold calculateBaleGrade
    simp [Option.any, hout, h30]
  · intro h25 h30
    unfold calculateBaleGrade
    simp [Option.any, hout, h25, not_lt.mpr h30]

/-- Witness for C8 at a concrete input. -/
theorem c8_moisture_rule_order_witness :
    calculateBaleGrade (some 31) "GREEN" "DRY" false false = BaleGrade.D :=
  (c8_moisture_rule_order 31 (by norm_num)).1 (by norm_num)

/-- C10: a measured moisture below 10 on a dry dark-green or green bale
with no mold and no contamination still yields grade A: the final
green-and-dry rule does not require the moisture reading to be absent. -/
theorem c10_low_moisture_still_grade_A (m : ℚ) (color : String)
    (hm : m < 10) (hc : color = "DARK_GREEN" ∨ color = "GREEN") :
    calculateBaleGrade (some m) color "DRY" false false = BaleGrade.A := by
  have h10 : ¬ (10 ≤ m) := not_le.mpr hm
  have h30 : ¬ (30 < m) := by linarith
  have h25 : ¬ (25 < m) := by linarith
  have h14 : ¬ (14 < m) := by linarith
  unfold calculateBaleGrade
  rcases hc with hc | hc <;> subst hc <;> simp [Option.any, h10, h30, h25, h14]

/-- Witness for C10 at a concrete input. -/
theorem c10_low_moisture_still_grade_A_witness :
    calculateBaleGrade (some 5) "GREEN" "DRY" false false = BaleGrade.A :=
  c10_low_moisture_still_grade_A 5 "GREEN" (by norm_num) (Or.inr rfl)

/-- C2: a CUSTOMER or SUPPLIER principal on a same-company entity is
allowed exactly when a POUserAssignment exists for the pair of the
entity poId and the principal userId; without one the guard fails with
403 FORBIDDEN, not 404. -/
theorem c2_assigned_roles_allow_iff_assignment (db : DB) (auth : AuthPayload)
    (e : EntityRef) (p : String)
    (hrole : auth.role = "CUSTOMER" ∨ auth.role = "SUPPLIER")
    (hc : rootCompany db e = some auth.companyId)
    (hp : assignmentPoId db e = some p) :
    (accessDecision db auth e = .allow () ↔ hasAssignment db p auth.userId = true)
    ∧ (hasAssignment db p auth.userId = false →
        accessDecision db auth e = .httpError 403 (forbiddenMsg e)) := by
  cases e with
  | po id =>
    simp only [rootCompany] at hc
    obtain ⟨po, hpo, hcc⟩ := Option.map_eq_some'.mp hc
    simp only [assignmentPoId, hpo, Option.map_some', Option.some.injEq] at hp
    subst hp
    rcases hrole with hr | hr <;>
      cases hA : hasAssignment db id auth.userId <;>
        simp [accessDecision, requirePOAccess, hpo, hcc, hr, hA,
          AccessResult.forget, forbiddenMsg]
  | shipment id =>
    simp only [rootCompany] at hc
    obtain ⟨⟨s, po⟩, hsp, hcc⟩ := Option.map_eq_some'.mp hc
    have hcc2 : po.companyId = auth.companyId := hcc
    have hs : findShipment db id = some s := (shipmentWithPO_eq_some hsp).1
    simp only [assignmentPoId, hs, Option.map_some', Option.some.injEq] at hp
    subst hp
    rcases hrole with hr | hr <;>
      cases hA : hasAssignment db s.poId auth.userId <;>
        simp [accessDecision, requireShipmentAccess, hsp, hcc2, hr, hA,
          AccessResult.forget, forbiddenMsg]
  | container id =>
    simp only [rootCompany] at hc
    obtain ⟨⟨cc, s, po⟩, hch, hcc⟩ := Option.map_eq_some'.mp hc
    have hcc2 : po.companyId = auth.companyId := hcc
    simp only [assignmentPoId, hch, Option.map_some', Option.some.injEq] at hp
    subst hp
    rcases hrole with hr | hr <;>
      cases hA : hasAssignment db s.poId auth.userId <;>
        simp [accessDecision, requireContainerAccess, hch, hcc2, hr, hA,
          AccessResult.forget, forbiddenMsg]
  | bale id =>
    simp only [rootCompany] at hc
    obtain ⟨⟨b, cc, s, po⟩, hch, hcc⟩ := Option.map_eq_some'.mp hc
    have hcc2 : po.companyId = auth.companyId := hcc
    have hfb : findBale db id = some b := (baleWithChain_eq_some hch).1
    simp only [assignmentPoId, hfb, Option.map_some', Option.some.injEq] at hp
    subst hp
    rcases hrole with hr | hr <;>
      cases hA : hasAssignment db b.poId auth.userId <;>
        simp [accessDecision, requireBaleAccess, hch, hcc2, hr, hA,
          AccessResult.forget, forbiddenMsg]

/-- Witness for C2: customer u1 is assigned to p1 and is allowed; the
unassigned customer u2 of the same company receives 403. -/
theorem c2_assigned_roles_allow_iff_assignment_witness :
    accessDecision sampleDB customerA (.po "p1") = .allow ()
    ∧ accessDecision sampleDB customerA2 (.po "p1")
        = .httpError 403 (forbiddenMsg (.po "p1")) := by
  have h1 := c2_assigned_roles_allow_iff_assignment sampleDB customerA (.po "p1")
    "p1" (Or.inl rfl) (by decide) (by decide)
  have h2 := c2_assigned_roles_allow_iff_assignment sampleDB customerA2 (.po "p1")
    "p1" (Or.inl rfl) (by decide) (by decide)
  exact ⟨h1.1.mpr (by decide), h2.2 (by decide)⟩

/-- C3: a SUPERVISOR or INSPECTOR principal is allowed on every
same-company entity, and the decision does not depend on the assignment
table in any way. -/
theorem c3_company_roles_always_allowed (db : DB) (auth : AuthPayload)
    (e : EntityRef)
    (hrole : auth.role = "SUPERVISOR" ∨ auth.role = "INSPECTOR")
    (hc : rootCompany db e = some auth.companyId) :
    accessDecision db auth e = .allow ()
    ∧ ∀ asg, accessDecision { db with assignments := asg } auth e = .allow () := by
  have hncs : ¬ (auth.role = "CUSTOMER" ∨ auth.role = "SUPPLIER") := by
    rcases hrole with hr | hr <;> simp [hr]
  refine ⟨nonRestricted_role_allows db auth e hncs hc, fun asg => ?_⟩
  exact nonRestricted_role_allows _ auth e hncs
    ((rootCompany_update_assignments db asg e).trans hc)

/-- Witness for C3: supervisor u3 sees bale b1 whatever the assignment
table holds. -/
theorem c3_company_roles_always_allowed_witness :
    accessDecision sampleDB supervisorA (.bale "b1") = .allow ()
    ∧ accessDecision { sampleDB with assignments := [] } supervisorA (.bale "b1")
        = .allow () := by
  have h := c3_company_roles_always_allowed sampleDB supervisorA (.bale "b1")
    (Or.inl rfl) (by decide)
  exact ⟨h.1, h.2 []⟩

/-- C6 counterexample: the principal with the unrecognized role string
ADMIN, holding no assignment at all, is granted view access to the
same-company purchase order p1 — the claimed no-capability default does
not hold in the guards. -/
theorem c6_counterexample_unknown_role_allowed :
    adminA.role ∉ (["SUPERVISOR", "INSPECTOR", "CUSTOMER", "SUPPLIER"] : List String)
    ∧ rootCompany sampleDB (.po "p1") = some adminA.companyId
    ∧ sampleDB.assignments.all (fun a => a.userId ≠ adminA.userId) = true
    ∧ accessDecision sampleDB adminA (.po "p1") = .allow () := by decide

/-- C6 amended: a role outside the four known roles is handled
permissively by the access guards — it is treated like the unrestricted
company-scoped roles and granted view access to every same-company
entity; unrecognized roles are rejected only where `requireRole` is
invoked with an explicit allow-list. -/
theorem c6_amended_unknown_role_is_permissive (db : DB) (auth : AuthPayload)
    (e : EntityRef)
    (hrole : auth.role ∉
      (["SUPERVISOR", "INSPECTOR", "CUSTOMER", "SUPPLIER"] : List String))
    (hc : rootCompany db e = some auth.companyId) :
    accessDecision db auth e = .allow ()
    ∧ ∀ allowed : List String, auth.role ∉ allowed →
        requireRole auth allowed = .httpError 403
          ("Access denied. Required roles: " ++ String.intercalate ", " allowed) := by
  have hncs : ¬ (auth.role = "CUSTOMER" ∨ auth.role = "SUPPLIER") := by
    simp only [List.mem_cons, List.mem_singleton, not_or] at hrole
    tauto
  refine ⟨nonRestricted_role_allows db auth e hncs hc, fun allowed hmem => ?_⟩
  simp [requireRole, hmem]

/-- Witness for the amended C6 at the concrete ADMIN principal. -/
theorem c6_amended_unknown_role_is_permissive_witness :
    accessDecision sampleDB adminA (.po "p1") = .allow ()
    ∧ requireRole adminA ["SUPERVISOR"] = .httpError 403
        ("Access denied. Required roles: " ++ String.intercalate ", " ["SUPERVISOR"]) := by
  have h := c6_amended_unknown_role_is_permissive sampleDB adminA (.po "p1")
    (by decide) (by decide)
  exact ⟨h.1, h.2 ["SUPERVISOR"] (by decide)⟩

/-- C9: for a CUSTOMER or SUPPLIER principal and a bale whose stored
denormalized poId disagrees with the purchase order reached by walking
the live container → shipment chain (after that chain has passed the
company check), the allow / forbidden outcome is decided purely by an
assignment lookup on the stored poId. -/
theorem c9_bale_assignment_follows_stored_poId (db : DB) (auth : AuthPayload)
    (baleId : String) (b : BaleRec) (cc : ContainerRec) (s : ShipmentRec)
    (po : PORec)
    (hchain : baleWithChain db baleId = some (b, cc, s, po))
    (hcomp : po.companyId = auth.companyId)
    (hrole : auth.role = "CUSTOMER" ∨ auth.role = "SUPPLIER")
    (_hdiff : b.poId ≠ s.poId) :
    requireBaleAccess db auth baleId =
      (if hasAssignment db b.poId auth.userId then
        AccessResult.allow (auth, b.containerId, b.shipmentId, b.poId)
      else AccessResult.httpError 403 "You do not have access to this bale") := by
  rcases hrole with hr | hr <;>
    cases hA : hasAssignment db b.poId auth.userId <;>
      simp [requireBaleAccess, hchain, hcomp, hr, hA]

/-- Witness for C9: customer u1 is assigned to the chain purchase order
p1 of bale bX, yet the guard checks the stored poId pX and denies. -/
theorem c9_bale_assignment_follows_stored_poId_witness :
    requireBaleAccess sampleDB customerA "bX"
      = .httpError 403 "You do not have access to this bale" := by
  have h := c9_bale_assignment_follows_stored_poId sampleDB customerA "bX"
    (mkBale "bX" "pX" "s1" "c1" "i1" 3)
    { id := "c1", shipmentId := "s1" } { id := "s1", poId := "p1" }
    { id := "p1", companyId := "A" }
    (by decide) (by decide) (Or.inl rfl) (by decide)
  rw [h]
  decide

/-- Reduction of the optional filter when the parameter is absent. -/
theorem matchOpt_none (v : String) : matchOpt none v = true := rfl

/-- Inserting one element grows the length by one. -/
theorem length_insertByBaleNumber (b : BaleRec) (l : List BaleRec) :
    (insertByBaleNumber b l).length = l.length + 1 := by
  induction l with
  | nil => rfl
  | cons x xs ih =>
    unfold insertByBaleNumber
    split <;> simp [ih]

/-- Sorting preserves the length. -/
theorem length_orderByBaleNumber (l : List BaleRec) :
    (orderByBaleNumber l).length = l.length := by
  induction l with
  | nil => rfl
  | cons x xs ih =>
    unfold orderByBaleNumber
    rw [length_insertByBaleNumber, ih, List.length_cons]

/-- C5 counterexample: with only an inspectorId filter the handler does
apply company scoping — the company-B bale b2 matches the filter but is
missing from the company-A result, and two principals that differ only
in companyId receive different results. -/
theorem c5_counterexample_inspector_filter_is_scoped :
    inspectorOnlyQuery.containerId = none
    ∧ inspectorOnlyQuery.shipmentId = none
    ∧ inspectorOnlyQuery.poId = none
    ∧ inspectorOnlyQuery.inspectorId = some "i1"
    ∧ supervisorA5.userId = supervisorB5.userId
    ∧ supervisorA5.role = supervisorB5.role
    ∧ supervisorA5.companyId ≠ supervisorB5.companyId
    ∧ (mkBale "b2" "p2" "s2" "c2" "i1" 2).inspectorId = "i1"
    ∧ mkBale "b2" "p2" "s2" "c2" "i1" 2 ∈ sampleDB.bales
    ∧ listBales sampleDB supervisorA5 inspectorOnlyQuery
        = .allow [mkBale "b1" "p1" "s1" "c1" "i1" 1, mkBale "bX" "pX" "s1" "c1" "i1" 3]
    ∧ listBales sampleDB supervisorA5 inspectorOnlyQuery
        ≠ listBales sampleDB supervisorB5 inspectorOnlyQuery := by decide

/-- C5 amended: a list query with a shipmentId or poId filter and no
containerId performs no company scoping and no assignment check — the
result is the plain filter over all bales, identical for every
principal; supplying only inspectorId does not suppress company scoping,
which is applied exactly when none of containerId, shipmentId, poId is
given. -/
theorem c5_amended_parent_filter_unscoped (db : DB) (auth : AuthPayload)
    (q : BaleQuery)
    (hcid : q.containerId = none)
    (hparent : q.shipmentId ≠ none ∨ q.poId ≠ none)
    (hlim : db.bales.length ≤ q.limit) :
    listBales db auth q = .allow (orderByBaleNumber (db.bales.filter (fun b =>
        matchOpt q.shipmentId b.shipmentId && matchOpt q.poId b.poId
          && matchOpt q.inspectorId b.inspectorId)))
    ∧ (∀ auth2, listBales db auth2 q = listBales db auth q)
    ∧ (∀ q2 : BaleQuery, q2.containerId = none → q2.shipmentId = none →
        q2.poId = none →
        listBales db auth q2 = .allow ((orderByBaleNumber (db.bales.filter
          (fun b => matchOpt q2.inspectorId b.inspectorId
            && (chainCompanyOfBale db b == some auth.companyId)))).take q2.limit)) := by
  have hwhere : ∀ a2 : AuthPayload, ∀ b, listBalesWhere db a2 q b
      = (matchOpt q.shipmentId b.shipmentId && matchOpt q.poId b.poId
          && matchOpt q.inspectorId b.inspectorId) := by
    intro a2 b
    rcases hparent with h | h <;>
      cases h2 : matchOpt q.shipmentId b.shipmentId <;>
      cases h3 : matchOpt q.poId b.poId <;>
      cases h4 : matchOpt q.inspectorId b.inspectorId <;>
        simp [listBalesWhere, hcid, h, h2, h3, h4, matchOpt_none]
  have main : ∀ a2 : AuthPayload, listBales db a2 q
      = .allow (orderByBaleNumber (db.bales.filter (fun b =>
          matchOpt q.shipmentId b.shipmentId && matchOpt q.poId b.poId
            && matchOpt q.inspectorId b.inspectorId))) := by
    intro a2
    simp only [listBales, hcid]
    rw [List.filter_congr (fun b _ => hwhere a2 b),
      List.take_of_length_le]
    rw [length_orderByBaleNumber]
    exact le_trans (List.length_filter_le _ _) hlim
  refine ⟨main auth, fun a2 => (main a2).trans (main auth).symm, ?_⟩
  intro q2 h1 h2 h3
  have hwhere2 : ∀ b, listBalesWhere db auth q2 b
      = (matchOpt q2.inspectorId b.inspectorId
          && (chainCompanyOfBale db b == some auth.companyId)) := by
    intro b
    cases h4 : matchOpt q2.inspectorId b.inspectorId <;>
      by_cases h5 : chainCompanyOfBale db b = some auth.companyId <;>
        simp [listBalesWhere, h1, h2, h3, h4, h5, matchOpt_none]
  simp only [listBales, h1]
  rw [List.filter_congr (fun b _ => hwhere2 b)]

/-- Witness for the amended C5 at concrete queries on the sample state. -/
theorem c5_amended_parent_filter_unscoped_witness :
    listBales sampleDB supervisorA5 { shipmentId := some "s1" }
      = .allow (orderByBaleNumber (sampleDB.bales.filter (fun b =>
          matchOpt (some "s1") b.shipmentId && matchOpt none b.poId
            && matchOpt none b.inspectorId)))
    ∧ listBales sampleDB supervisorB5 { shipmentId := some "s1" }
        = listBales sampleDB supervisorA5 { shipmentId := some "s1" }
    ∧ listBales sampleDB supervisorA5 inspectorOnlyQuery
        = .allow ((orderByBaleNumber (sampleDB.bales.filter
            (fun b => matchOpt (some "i1") b.inspectorId
              && (chainCompanyOfBale sampleDB b == some "A")))).take 100) := by
  have h := c5_amended_parent_filter_unscoped sampleDB supervisorA5
    { shipmentId := some "s1" } rfl (Or.inl (by decide)) (by decide)
  exact ⟨h.1, h.2.1 supervisorB5, h.2.2 inspectorOnlyQuery rfl rfl rfl⟩

/-- C4 (evaluation of the code at the failing input): the creation
handler stores the client-supplied ancestor ids p-bogus / s-bogus on the
new bale even though the live chain of the target container c1 is
s1 → p1; nothing recomputes or validates the denormalized ids. -/
theorem c4_create_stores_client_supplied_ids :
    (createBale sampleDB supervisorA bogusInput "b-new").1
      = .allow (baleOfInput "b-new" bogusInput)
    ∧ (baleOfInput "b-new" bogusInput).poId = "p-bogus"
    ∧ (baleOfInput "b-new" bogusInput).shipmentId = "s-bogus"
    ∧ containerWithChain sampleDB bogusInput.containerId
        = some ({ id := "c1", shipmentId := "s1" }, { id := "s1", poId := "p1" },
            { id := "p1", companyId := "A" })
    ∧ ("p-bogus" : String) ≠ "p1" ∧ ("s-bogus" : String) ≠ "s1"
    ∧ baleOfInput "b-new" bogusInput ∈ (createBale sampleDB supervisorA bogusInput "b-new").2.bales := by
  decide

/-- C1: when the root company of an entity differs from the principal
company, every guard fails with the same 404 outcome it produces for an
entity that does not exist at all, for every role and every assignment
state (the database, assignments included, is arbitrary). -/
theorem c1_cross_tenant_not_found (db : DB) (auth : AuthPayload) (e : EntityRef)
    (c : String) (hc : rootCompany db e = some c) (hne : c ≠ auth.companyId) :
    accessDecision db auth e = .httpError 404 (notFoundMsg e)
    ∧ ∀ db2, rootCompany db2 e = none →
        accessDecision db2 auth e = .httpError 404 (notFoundMsg e) := by
  constructor
  · cases e with
    | po id =>
      simp only [rootCompany] at hc
      obtain ⟨po, hpo, hcc⟩ := Option.map_eq_some'.mp hc
      have hne2 : po.companyId ≠ auth.companyId := hcc ▸ hne
      simp [accessDecision, requirePOAccess, hpo, hne2, AccessResult.forget, notFoundMsg]
    | shipment id =>
      simp only [rootCompany] at hc
      obtain ⟨⟨s, po⟩, hsp, hcc⟩ := Option.map_eq_some'.mp hc
      have hne2 : po.companyId ≠ auth.companyId := hcc ▸ hne
      simp [accessDecision, requireShipmentAccess, hsp, hne2, AccessResult.forget,
        notFoundMsg]
    | container id =>
      simp only [rootCompany] at hc
      obtain ⟨⟨cc, s, po⟩, hcs, hcc⟩ := Option.map_eq_some'.mp hc
      have hne2 : po.companyId ≠ auth.companyId := hcc ▸ hne
      simp [accessDecision, requireContainerAccess, hcs, hne2, AccessResult.forget,
        notFoundMsg]
    | bale id =>
      simp only [rootCompany] at hc
      obtain ⟨⟨b, cc, s, po⟩, hbc, hcc⟩ := Option.map_eq_some'.mp hc
      have hne2 : po.companyId ≠ auth.companyId := hcc ▸ hne
      simp [accessDecision, requireBaleAccess, hbc, hne2, AccessResult.forget,
        notFoundMsg]
  · intro db2 h0
    cases e with
    | po id =>
      simp only [rootCompany] at h0
      have hnone : findPO db2 id = none := Option.map_eq_none'.mp h0
      simp [accessDecision, requirePOAccess, hnone, AccessResult.forget, notFoundMsg]
    | shipment id =>
      simp only [rootCompany] at h0
      have hnone : shipmentWithPO db2 id = none := Option.map_eq_none'.mp h0
      simp [accessDecision, requireShipmentAccess, hnone, AccessResult.forget,
        notFoundMsg]
    | container id =>
      simp only [rootCompany] at h0
      have hnone : containerWithChain db2 id = none := Option.map_eq_none'.mp h0
      simp [accessDecision, requireContainerAccess, hnone, AccessResult.forget,
        notFoundMsg]
    | bale id =>
      simp only [rootCompany] at h0
      have hnone : baleWithChain db2 id = none := Option.map_eq_none'.mp h0
      simp [accessDecision, requireBaleAccess, hnone, AccessResult.forget, notFoundMsg]

/-- Witness for C1: a SUPERVISOR of company A receives the same 404 for
the company-B purchase order p2 as for an absent entity. -/
theorem c1_cross_tenant_not_found_witness :
    accessDecision sampleDB supervisorA (.po "p2")
        = .httpError 404 (notFoundMsg (.po "p2"))
    ∧ accessDecision emptyDB supervisorA (.po "p2")
        = .httpError 404 (notFoundMsg (.po "p2")) := by
  have h := c1_cross_tenant_not_found sampleDB supervisorA (.po "p2") "B"
    (by decide) (by decide)
  exact ⟨h.1, h.2 emptyDB (by decide)⟩

end HayQC
